import Mathlib

/-!
Verification of the Capes code-execution layer.

The definitions below are a shallow embedding of the sandbox layer of the
repository, translated from the Python sources embedded in
src/docs/code-execution-layer-design.md (SandboxManager, ProcessSandbox,
DockerSandbox) and src/docs/PPTX_CAPE_FULL_CHAIN.md (CapeMatcher).

Modelling conventions:
- The private working area of a session is a finite map from relative path
  strings to byte contents; bytes are lists of naturals.
- The behaviour of the executed unit of work (the subprocess or the container
  exec) is an oracle value: how long it runs, its exit code, its stdout and
  stderr, which files it leaves in the working area, and whether it wrote the
  well-known result file.
- Wall-clock time is abstracted to the duration field of that oracle; the
  timeout branch of asyncio.wait_for fires exactly when the duration of the
  work exceeds timeout_seconds.
-/

/-- Byte string: the contents of one file. -/
abbrev Bytes := List Nat

/-- A directory as a finite map from relative path to contents.
Entries written later shadow earlier ones via setFile. -/
abbrev Files := List (String × Bytes)

/-- Byte contents of a text written with write_text: one abstract byte per
character. -/
def strBytes (s : String) : Bytes := s.data.map Char.toNat

/-- Overwrite-or-create semantics of Path.write_bytes and Path.write_text:
the new entry shadows any previous entry for the same relative path. -/
def setFile (fs : Files) (name : String) (content : Bytes) : Files :=
  (name, content) :: fs.filter (fun e => e.1 != name)

/-- Write a list of files into a directory, in order, later writes winning. -/
def writeAll (fs : Files) (ws : Files) : Files :=
  ws.foldl (fun acc nc => setFile acc nc.1 nc.2) fs

/-- The final path component of a relative path, mirroring Path.name: the
segment after the last slash. -/
def fileName (p : String) : String :=
  String.mk (p.data.foldl (fun acc c => if c = '/' then [] else acc ++ [c]) [])

/-- Whether a file name starts with an underscore, the temporary-file test
of the collection loops. -/
def startsUnderscore (s : String) : Bool :=
  match s.data with
  | [] => false
  | c :: _ => c == '_' 

/-- The key set of a directory map. -/
def fileKeys (fs : Files) : List String := fs.map Prod.fst

theorem lookup_setFile_self (fs : Files) (n : String) (c : Bytes) :
    (setFile fs n c).lookup n = some c := by
  simp [setFile, List.lookup]

theorem lookup_filter_ne (fs : Files) (n m : String) (h : m ≠ n) :
    (fs.filter (fun e => e.1 != n)).lookup m = fs.lookup m := by
  induction fs with
  | nil => rfl
  | cons a t ih =>
    rcases a with ⟨k, v⟩
    by_cases hk : k = n
    · subst hk
      have hm : (m == k) = false := beq_eq_false_iff_ne.mpr h
      simp [List.filter_cons, List.lookup, hm, ih]
    · have hd : (k != n) = true := bne_iff_ne.mpr hk
      by_cases hmk : m = k
      · subst hmk
        simp [List.filter_cons, hd, List.lookup]
      · have hm : (m == k) = false := beq_eq_false_iff_ne.mpr hmk
        simp [List.filter_cons, hd, List.lookup, hm, ih]

theorem lookup_setFile_ne (fs : Files) (n m : String) (c : Bytes) (h : m ≠ n) :
    (setFile fs n c).lookup m = fs.lookup m := by
  have hm : (m == n) = false := beq_eq_false_iff_ne.mpr h
  simp only [setFile, List.lookup, hm]
  exact lookup_filter_ne fs n m h

theorem lookup_writeAll_not_mem (ws : Files) (fs : Files) (n : String)
    (h : n ∉ ws.map Prod.fst) :
    (writeAll fs ws).lookup n = fs.lookup n := by
  induction ws generalizing fs with
  | nil => rfl
  | cons w t ih =>
    simp only [List.map_cons, List.mem_cons] at h
    push_neg at h
    simpa [writeAll] using
      (ih (setFile fs w.1 w.2) h.2).trans (lookup_setFile_ne fs w.1 n w.2 h.1)

theorem lookup_writeAll_mem (ws : Files) (fs : Files) (F : String) (B : Bytes)
    (hnd : (ws.map Prod.fst).Nodup) (hmem : (F, B) ∈ ws) :
    (writeAll fs ws).lookup F = some B := by
  induction ws generalizing fs with
  | nil => exact absurd hmem (List.not_mem_nil _)
  | cons w t ih =>
    rcases w with ⟨n, c⟩
    rw [List.map_cons, List.nodup_cons] at hnd
    have hstep : writeAll fs ((n, c) :: t) = writeAll (setFile fs n c) t := rfl
    rw [hstep]
    rcases List.mem_cons.mp hmem with heq | hmem2
    · injection heq with h1 h2
      subst h1; subst h2
      rw [lookup_writeAll_not_mem t (setFile fs F B) F hnd.1]
      exact lookup_setFile_self fs F B
    · exact ih (setFile fs n c) hnd.2 hmem2

/-- Output-file collection shared by ProcessSandbox._collect_output_files and
the collection loop inside DockerSandbox.execute: keep every file of the
working area whose file name does not start with an underscore and whose
relative path is not a key of the input files of the request. -/
def collectOutputFiles (workFiles : Files) (inputFiles : Files) : Files :=
  workFiles.filter (fun e =>
    !startsUnderscore (fileName e.1) && !(inputFiles.map Prod.fst).contains e.1)

theorem mem_collectOutputFiles (wf inp : Files) (F : String) (B : Bytes) :
    (F, B) ∈ collectOutputFiles wf inp ↔
      (F, B) ∈ wf ∧ startsUnderscore (fileName F) = false ∧
        (inp.map Prod.fst).contains F = false := by
  simp only [collectOutputFiles, List.mem_filter, Bool.and_eq_true,
    Bool.not_eq_true']

/-! Data model translated from the manager.py section of
src/docs/code-execution-layer-design.md. -/

/-- The docker member of the SandboxType string enum. -/
def SandboxType.DOCKER : String := "docker"

/-- The process member of the SandboxType string enum. -/
def SandboxType.PROCESS : String := "process"

/-- The inprocess member of the SandboxType string enum. -/
def SandboxType.INPROCESS : String := "inprocess"

/-- SandboxConfig (lines 64 to 79). The type field is a plain string: the
source enum is a str enum and the dataclass performs no validation, so
values outside the three members are representable. -/
structure SandboxConfig where
  type : String := SandboxType.PROCESS
  timeout_seconds : Nat := 30
  max_memory_mb : Nat := 512
  max_cpu_percent : Nat := 50
  network_enabled : Bool := false
  deriving Repr, DecidableEq

/-- ExecutionRequest (lines 82 to 90). The script_path field carries the
content of the referenced script file; argsJson stands for the serialized
argument mapping. -/
structure ExecutionRequest where
  script_path : Option String := none
  code : Option String := none
  argsJson : String := ""
  env : List (String × String) := []
  files : Files := []
  deriving Repr, DecidableEq

/-- ExecutionResponse (lines 93 to 103), with the field defaults of the
dataclass. The output field carries the raw text of the well-known result
file when the executed code wrote one. -/
structure ExecutionResponse where
  success : Bool
  output : Option String := none
  stdout : String := ""
  stderr : String := ""
  exit_code : Int := 0
  files_created : Option Files := none
  error : Option String := none
  deriving Repr, DecidableEq

/-- Oracle describing what the launched unit of work would do if allowed to
finish: how many seconds it runs, its exit status, its captured streams, the
files it leaves in the working area, and the content of the well-known
result file if it writes one. -/
structure WorkBehavior where
  duration : Nat := 0
  returncode : Int := 0
  stdout : String := ""
  stderr : String := ""
  filesWritten : Files := []
  resultContent : Option String := none
  deriving Repr, DecidableEq

/-- Fate of the underlying OS process of one execute call. -/
inductive ProcessFate where
  | notSpawned
  | killed
  | exited
  deriving Repr, DecidableEq

/-- State of one ProcessSandbox session: configuration, installed-package
set, current contents of the private working area, and whether cleanup has
removed the working area. -/
structure ProcState where
  config : SandboxConfig := {}
  installed : List String := []
  files : Files := []
  closed : Bool := false
  deriving Repr, DecidableEq

/-- Code selection inside ProcessSandbox._prepare_script: the entrypoint
script content first, then inline code, then a trivial default. The wrapper
text placed around the selected code is abstracted to the selection itself;
every claim treats the generated _exec.py as opaque bytes. -/
def resolveCode (req : ExecutionRequest) : String :=
  match req.script_path with
  | some c => c
  | none => match req.code with
    | some c => c
    | none => "result = None"

/-- The error text built on the timeout branch of ProcessSandbox.execute. -/
def timeoutMsg (t : Nat) : String :=
  "Execution timeout (" ++ toString t ++ "s)"

/-- Modelled text of the FileNotFoundError raised when execute writes into a
working area that cleanup has already removed. The exact wording is runtime
data of the OS; the model only fixes that it is an OS error text, not a name
from the error taxonomy of the specification. -/
def missingWorkDirMsg : String := "No such file or directory"

/-- First phase of ProcessSandbox.execute, up to create_subprocess_exec:
write the wrapper script _exec.py and then the input files of the request
into the working area, and spawn the subprocess. -/
def startExec (fs : Files) (req : ExecutionRequest) : Files :=
  writeAll (setFile fs "_exec.py" (strBytes (resolveCode req))) req.files

/-- Second phase of ProcessSandbox.execute, from asyncio.wait_for onward.
When the work outlives timeout_seconds the wait raises TimeoutError, the
process is killed, and a bare failure response with the timeout text is
returned (no streams, no result, no file collection). Otherwise the process
exits on its own, the result file is read if present, and the output files
are collected. -/
def finishExec (cfg : SandboxConfig) (fs : Files) (req : ExecutionRequest)
    (b : WorkBehavior) : Files × ExecutionResponse × ProcessFate :=
  if cfg.timeout_seconds < b.duration then
    (writeAll fs b.filesWritten,
     { success := false, error := some (timeoutMsg cfg.timeout_seconds) },
     ProcessFate.killed)
  else
    let fs1 := writeAll fs b.filesWritten
    let fs2 := match b.resultContent with
      | some r => setFile fs1 "_result.json" (strBytes r)
      | none => fs1
    (fs2,
     { success := b.returncode == 0
       output := b.resultContent
       stdout := b.stdout
       stderr := b.stderr
       exit_code := b.returncode
       files_created := some (collectOutputFiles fs2 req.files)
       error := if b.returncode != 0 then some b.stderr else none },
     ProcessFate.exited)

/-- Result of one ProcessSandbox.execute call. -/
structure ExecOutcome where
  state : ProcState
  resp : ExecutionResponse
  fate : ProcessFate
  deriving Repr, DecidableEq

/-- ProcessSandbox.execute (lines 216 to 291). When cleanup already removed
the working area, the very first write raises FileNotFoundError and the
except branch returns the exception text without spawning anything;
otherwise the two phases run back to back. -/
def ProcessSandbox.execute (s : ProcState) (req : ExecutionRequest)
    (b : WorkBehavior) : ExecOutcome :=
  if s.closed then
    { state := s
      resp := { success := false, error := some missingWorkDirMsg }
      fate := ProcessFate.notSpawned }
  else
    let fs1 := startExec s.files req
    let r := finishExec s.config fs1 req b
    { state := { s with files := r.1 }, resp := r.2.1, fate := r.2.2 }

/-- Result of one install_packages call: the updated session state, the
boolean the method returns, and how many times pip ran during the call. -/
structure InstallOutcome where
  state : ProcState
  ok : Bool
  pipRuns : Nat
  deriving Repr, DecidableEq

/-- ProcessSandbox.install_packages (lines 332 to 351): drop the packages
already in the installed set; when nothing is new, return true without
running pip; otherwise run pip once over the new packages and record them in
the installed set only when pip succeeds (pipOk covers both a nonzero pip
exit and a raised exception). -/
def ProcessSandbox.install_packages (s : ProcState) (pkgs : List String)
    (pipOk : Bool) : InstallOutcome :=
  let newPkgs := pkgs.filter (fun p => !s.installed.contains p)
  if newPkgs.isEmpty then { state := s, ok := true, pipRuns := 0 }
  else if pipOk then
    { state := { s with installed := s.installed ++ newPkgs }
      ok := true, pipRuns := 1 }
  else { state := s, ok := false, pipRuns := 1 }

/-- ProcessSandbox.cleanup (lines 366 to 369): remove the working area. -/
def ProcessSandbox.cleanup (s : ProcState) : ProcState :=
  { s with files := [], closed := true }

/-- State of one DockerSandbox session: configuration, the shared working
area mounted into the container, whether the container attribute is set, and
whether cleanup has removed the working area. -/
structure DockerState where
  config : SandboxConfig := { type := SandboxType.DOCKER }
  files : Files := []
  containerSet : Bool := true
  closed : Bool := false
  deriving Repr, DecidableEq

/-- Code selection inside DockerSandbox.execute: script content first, else
inline code, else no script file is written at all. -/
def resolveDockerCode (req : ExecutionRequest) : Option String :=
  match req.script_path with
  | some c => some c
  | none => req.code

/-- DockerSandbox.execute (lines 460 to 525): write script.py, the input
files and _args.json into the shared working area, run the container exec to
completion (exec_run is called without any timeout argument and the method
has no timeout branch), then read the result file and collect the output
files with the same filter as the process backend. The error field is never
assigned on this path, so it keeps its None default even for a nonzero exit;
the except branch covers a working area already removed by cleanup. -/
def DockerSandbox.execute (s : DockerState) (req : ExecutionRequest)
    (b : WorkBehavior) : DockerState × ExecutionResponse :=
  if s.closed then
    (s, { success := false, error := some missingWorkDirMsg })
  else
    let fs1 := match resolveDockerCode req with
      | some c => setFile s.files "script.py" (strBytes c)
      | none => s.files
    let fs2 := writeAll fs1 req.files
    let fs3 := setFile fs2 "_args.json" (strBytes req.argsJson)
    let fs4 := writeAll fs3 b.filesWritten
    let fs5 := match b.resultContent with
      | some r => setFile fs4 "_result.json" (strBytes r)
      | none => fs4
    ({ s with files := fs5 },
     { success := b.returncode == 0
       output := b.resultContent
       stdout := b.stdout
       stderr := b.stderr
       exit_code := b.returncode
       files_created := some (collectOutputFiles fs5 req.files)
       error := none })

/-- DockerSandbox.install_packages (lines 527 to 535): no installed set and
no filtering; when the container attribute is unset the method returns false
without running pip, otherwise pip install runs with the full package list
on every call and the method returns whether its exit code was zero. The
second component lists the pip invocations of the call with their argument
lists. -/
def DockerSandbox.install_packages (s : DockerState) (pkgs : List String)
    (pipExitOk : Bool) : Bool × List (List String) :=
  if s.containerSet then (pipExitOk, [pkgs]) else (false, [])

/-- DockerSandbox.cleanup (lines 537 to 545): stop and remove the container
and remove the working area. -/
def DockerSandbox.cleanup (s : DockerState) : DockerState :=
  { s with files := [], closed := true }

/-- The backend class chosen by SandboxManager._create_sandbox. -/
inductive BackendKind where
  | docker
  | process
  | inprocess
  deriving Repr, DecidableEq

/-- Modelled from the spec: the error taxonomy of the specification names an
UnsupportedIsolation failure for unknown backend names. The implementation
raises no error of any kind during backend selection; this type gives the
creation function an explicit error channel so that the claim about it can
be stated. -/
inductive SandboxError where
  | unsupportedIsolation
  deriving Repr, DecidableEq

/-- SandboxManager._create_sandbox (lines 155 to 165): dispatch on the type
string; docker and process are matched explicitly, and every other value,
known or not, falls to the trailing else branch and yields the in-process
backend. No branch produces an error. -/
def SandboxManager.createSandbox (config : SandboxConfig) :
    Except SandboxError BackendKind :=
  if config.type = SandboxType.DOCKER then Except.ok BackendKind.docker
  else if config.type = SandboxType.PROCESS then Except.ok BackendKind.process
  else Except.ok BackendKind.inprocess

/-- The session table of the SandboxManager: sandbox id to stored backend. -/
structure Manager where
  table : List (String × BackendKind) := []
  deriving Repr, DecidableEq

/-- SandboxManager.get_sandbox (lines 140 to 153): return an existing entry
unchanged, otherwise create the backend named by the configuration, run its
setup and store it under the id. -/
def SandboxManager.get_sandbox (m : Manager) (id : String)
    (config : SandboxConfig) : Except SandboxError (Manager × BackendKind) :=
  match m.table.lookup id with
  | some b => Except.ok (m, b)
  | none =>
    match SandboxManager.createSandbox config with
    | Except.ok b => Except.ok ({ table := (id, b) :: m.table }, b)
    | Except.error e => Except.error e

/-- SandboxManager.release_sandbox (lines 167 to 171): when the id is
present, clean the stored sandbox up and delete the entry; otherwise do
nothing. Cleanup of either backend is total, so the call never fails. -/
def SandboxManager.release_sandbox (m : Manager) (id : String) : Manager :=
  if (m.table.map Prod.fst).contains id then
    { table := m.table.filter (fun e => e.1 != id) }
  else m

/-! Matcher translated from the CapeMatcher.match method in
src/docs/PPTX_CAPE_FULL_CHAIN.md (lines 336 to 364). Text is modelled as a
list of characters; the Python substring test is List.isInfixOf and lower()
maps Char.toLower over the query. Scores are exact rationals standing for
the float sums of the source. -/

/-- Text as the matcher sees it. -/
abbrev Str := List Char

/-- Check that the first list is a leading segment of the second. -/
def leadSeg : Str → Str → Bool
  | [], _ => true
  | _ :: _, [] => false
  | a :: as, b :: bs => a == b && leadSeg as bs

/-- The Python substring test: the pattern occurs contiguously somewhere in
the text. -/
def occursIn (pat : Str) : Str → Bool
  | [] => leadSeg pat []
  | b :: bs => leadSeg pat (b :: bs) || occursIn pat bs

/-- Metadata fields of a cape read by the matcher. -/
structure CapeMetadata where
  intents : List Str := []
  tags : List Str := []
  examples : List Str := []
  deriving Repr, DecidableEq

/-- A registered cape as seen by the matcher; the id is text like the other
matcher inputs. -/
structure Cape where
  id : Str
  metadata : CapeMetadata := {}
  deriving Repr, DecidableEq

/-- One entry of the result list of the matcher. -/
structure MatchResult where
  capeId : Str
  score : ℚ
  deriving Repr, DecidableEq

/-- The score loop of CapeMatcher.match: one half per intent phrase occurring
in the query, three tenths per tag occurring in the lowercased query, plus
one fifth times the similarity of each worked example; the similarity
collaborator is a parameter of the model. -/
def capeScore (sim : Str → Str → ℚ) (query : Str) (c : Cape) : ℚ :=
  ((c.metadata.intents.filter (fun i => occursIn i query)).length : ℚ) * (1/2)
    + ((c.metadata.tags.filter
        (fun t => occursIn t (query.map Char.toLower))).length : ℚ) * (3/10)
    + (c.metadata.examples.map (fun e => sim query e * (1/5))).sum

/-- Insert one result into a list ordered by score descending, after every
element whose score is not smaller: the placement a stable reverse sort
gives an element that arrived later. -/
def insertDesc (x : MatchResult) : List MatchResult → List MatchResult
  | [] => [x]
  | y :: ys => if y.score < x.score then x :: y :: ys else y :: insertDesc x ys

/-- Stable sort by score descending, modelling the list sort of the source
with key score and reverse set: elements are inserted in original order and
an element never moves ahead of an earlier element of equal score. -/
def pySortDesc (l : List MatchResult) : List MatchResult :=
  l.foldl (fun acc x => insertDesc x acc) []

/-- The result accumulation loop of CapeMatcher.match: one entry per cape
whose score is positive, in registry order. -/
def matchResults (sim : Str → Str → ℚ) (capes : List Cape)
    (query : Str) : List MatchResult :=
  capes.filterMap (fun c =>
    let s := capeScore sim query c
    if 0 < s then some { capeId := c.id, score := s } else none)

/-- CapeMatcher.match: build one result per cape whose score is positive, in
registry order, sort by score descending, and keep the first top_k entries.
The method takes no threshold parameter. -/
def CapeMatcher.matchQuery (sim : Str → Str → ℚ) (capes : List Cape)
    (query : Str) (top_k : Nat) : List MatchResult :=
  (pySortDesc (matchResults sim capes query)).take top_k

theorem mem_insertDesc (x z : MatchResult) (l : List MatchResult) :
    z ∈ insertDesc x l ↔ z = x ∨ z ∈ l := by
  induction l with
  | nil => simp [insertDesc]
  | cons y ys ih =>
    rw [insertDesc]
    by_cases h : y.score < x.score
    · rw [if_pos h]
      simp only [List.mem_cons]
    · rw [if_neg h]
      simp only [List.mem_cons, ih]
      tauto

theorem mem_pySortDesc_aux (l acc : List MatchResult) (z : MatchResult) :
    z ∈ l.foldl (fun a x => insertDesc x a) acc ↔ z ∈ acc ∨ z ∈ l := by
  induction l generalizing acc with
  | nil => simp
  | cons x t ih =>
    rw [List.foldl_cons, ih, mem_insertDesc]
    simp
    tauto

theorem mem_pySortDesc (l : List MatchResult) (z : MatchResult) :
    z ∈ pySortDesc l ↔ z ∈ l := by
  rw [pySortDesc, mem_pySortDesc_aux]
  simp

theorem pairwise_insertDesc (x : MatchResult) (l : List MatchResult)
    (h : l.Pairwise (fun a b => b.score ≤ a.score)) :
    (insertDesc x l).Pairwise (fun a b => b.score ≤ a.score) := by
  induction l with
  | nil => simp [insertDesc]
  | cons y ys ih =>
    rw [List.pairwise_cons] at h
    by_cases hlt : y.score < x.score
    · rw [insertDesc, if_pos hlt, List.pairwise_cons]
      constructor
      · intro z hz
        rcases List.mem_cons.mp hz with hzy | hzys
        · exact hzy ▸ le_of_lt hlt
        · exact le_trans (h.1 z hzys) (le_of_lt hlt)
      · rw [List.pairwise_cons]
        exact h
    · rw [insertDesc, if_neg hlt, List.pairwise_cons]
      constructor
      · intro z hz
        rcases (mem_insertDesc x z ys).mp hz with hzx | hzys
        · exact hzx ▸ le_of_not_lt hlt
        · exact h.1 z hzys
      · exact ih h.2

theorem pairwise_pySortDesc_aux (l acc : List MatchResult)
    (hacc : acc.Pairwise (fun a b => b.score ≤ a.score)) :
    (l.foldl (fun a x => insertDesc x a) acc).Pairwise
      (fun a b => b.score ≤ a.score) := by
  induction l generalizing acc with
  | nil => exact hacc
  | cons x t ih =>
    rw [List.foldl_cons]
    exact ih (insertDesc x acc) (pairwise_insertDesc x acc hacc)

theorem pairwise_pySortDesc (l : List MatchResult) :
    (pySortDesc l).Pairwise (fun a b => b.score ≤ a.score) :=
  pairwise_pySortDesc_aux l [] List.Pairwise.nil

/-- Boolean check that a result list is ordered by score descending. -/
def sortedDescBool : List MatchResult → Bool
  | [] => true
  | [_] => true
  | a :: b :: t => (b.score ≤ a.score) && sortedDescBool (b :: t)

/-- Boolean check that every result in a list has positive score. -/
def allPositiveScores (l : List MatchResult) : Bool :=
  l.all (fun r => 0 < r.score)

theorem sortedDescBool_of_pairwise :
    ∀ {l : List MatchResult},
      l.Pairwise (fun a b => b.score ≤ a.score) → sortedDescBool l = true
  | [], _ => rfl
  | [_], _ => rfl
  | a :: b :: t, h => by
    rw [List.pairwise_cons] at h
    have hb : b.score ≤ a.score := h.1 b (List.mem_cons_self _ _)
    have ht := sortedDescBool_of_pairwise h.2
    simp [sortedDescBool, hb, ht]

/-- Evidence that one execute call reached create_subprocess_exec: the
script the spawned interpreter was given. -/
structure SpawnedProcess where
  script : String
  deriving Repr, DecidableEq

/-- Outcome of two execute calls racing on the same session. -/
structure TwoCallOutcome where
  spawns : List SpawnedProcess
  respA : ExecutionResponse
  respB : ExecutionResponse
  deriving Repr, DecidableEq

/-- Two concurrent execute calls against the same ProcessSandbox session,
interleaved at the one suspension point of the method, the awaited wait_for:
call A runs its first phase and suspends; call B arrives while A is in
flight, runs its first phase and suspends; then both waits complete. The
method reads no busy flag and takes no lock, so the translation contains no
branch that could turn either call away. -/
def interleavedExecute (s : ProcState) (reqA reqB : ExecutionRequest)
    (bA bB : WorkBehavior) : TwoCallOutcome :=
  if s.closed then
    { spawns := []
      respA := { success := false, error := some missingWorkDirMsg }
      respB := { success := false, error := some missingWorkDirMsg } }
  else
    let fs1 := startExec s.files reqA
    let fs2 := startExec fs1 reqB
    let rA := finishExec s.config fs2 reqA bA
    let rB := finishExec s.config rA.1 reqB bB
    { spawns := [{ script := resolveCode reqA }, { script := resolveCode reqB }]
      respA := rA.2.1
      respB := rB.2.1 }

/-- Sample process session: default configuration with a one second
timeout. -/
def sampleProc : ProcState := { config := { timeout_seconds := 1 } }

/-- Sample docker session with a one second timeout. -/
def sampleDocker : DockerState :=
  { config := { type := SandboxType.DOCKER, timeout_seconds := 1 } }

/-- Sample long-running behaviour: five seconds of work, exit code zero. -/
def longWork : WorkBehavior := { duration := 5 }

/-- Claim C1, counterexample: on the container backend, a unit of work that
runs for five seconds under a configured timeout of one second is not timed
out and is not terminated: execute returns success true with no error and
exit code zero, because DockerSandbox.execute runs the container exec with
no timeout argument and has no timeout branch. -/
theorem C1_counterexample :
    (DockerSandbox.execute sampleDocker {} longWork).2.success = true ∧
    (DockerSandbox.execute sampleDocker {} longWork).2.error = none ∧
    sampleDocker.config.timeout_seconds < longWork.duration := by
  refine ⟨rfl, rfl, by decide⟩

/-- Claim C1 amended: only the isolated-process backend enforces the
wall-clock timeout. When the work outlives timeout_seconds,
ProcessSandbox.execute kills the process before returning success false with
the timeout error text; DockerSandbox.execute has no timeout branch at all
and returns the exit status of the work however long it ran, with no
error. -/
theorem C1_timeout_enforcement
    (s : ProcState) (req : ExecutionRequest) (b : WorkBehavior)
    (hopen : s.closed = false)
    (hlong : s.config.timeout_seconds < b.duration)
    (d : DockerState) (dreq : ExecutionRequest) (db : WorkBehavior)
    (hdopen : d.closed = false) :
    (ProcessSandbox.execute s req b).resp.success = false ∧
    (ProcessSandbox.execute s req b).resp.error
      = some (timeoutMsg s.config.timeout_seconds) ∧
    (ProcessSandbox.execute s req b).fate = ProcessFate.killed ∧
    (DockerSandbox.execute d dreq db).2.success = (db.returncode == 0) ∧
    (DockerSandbox.execute d dreq db).2.error = none := by
  simp [ProcessSandbox.execute, DockerSandbox.execute, finishExec,
    hopen, hdopen, if_pos hlong]

/-- Witness for the amended claim C1 at concrete inputs. -/
theorem C1_timeout_enforcement_witness :
    (ProcessSandbox.execute sampleProc {} longWork).resp.success = false ∧
    (ProcessSandbox.execute sampleProc {} longWork).resp.error
      = some (timeoutMsg sampleProc.config.timeout_seconds) ∧
    (ProcessSandbox.execute sampleProc {} longWork).fate
      = ProcessFate.killed ∧
    (DockerSandbox.execute sampleDocker {} longWork).2.success
      = (longWork.returncode == 0) ∧
    (DockerSandbox.execute sampleDocker {} longWork).2.error = none :=
  C1_timeout_enforcement sampleProc {} longWork rfl (by decide)
    sampleDocker {} longWork rfl

/-- Sample configuration naming a backend outside the supported set. -/
def gvisorConfig : SandboxConfig := { type := "gvisor" }

/-- Claim C2, counterexample: creating a sandbox for the unsupported backend
name gvisor does not fail with UnsupportedIsolation: the trailing else
branch of _create_sandbox silently yields the in-process backend. -/
theorem C2_counterexample :
    SandboxManager.createSandbox gvisorConfig
      = Except.ok BackendKind.inprocess ∧
    SandboxManager.createSandbox gvisorConfig
      ≠ Except.error SandboxError.unsupportedIsolation := by
  constructor
  · rfl
  · intro h
    rw [show SandboxManager.createSandbox gvisorConfig
          = Except.ok BackendKind.inprocess from rfl] at h
    exact Except.noConfusion h

/-- Claim C2 amended: backend selection never fails. Any configuration whose
backend name is neither docker nor process, which includes every unknown or
unsupported name, falls through to the else branch of _create_sandbox and
receives the in-process backend; no UnsupportedIsolation error exists on any
path. -/
theorem C2_unknown_backend_inprocess (config : SandboxConfig)
    (h1 : config.type ≠ SandboxType.DOCKER)
    (h2 : config.type ≠ SandboxType.PROCESS) :
    SandboxManager.createSandbox config = Except.ok BackendKind.inprocess := by
  simp [SandboxManager.createSandbox, h1, h2]

/-- Witness for the amended claim C2 at a concrete input. -/
theorem C2_unknown_backend_inprocess_witness :
    SandboxManager.createSandbox gvisorConfig
      = Except.ok BackendKind.inprocess :=
  C2_unknown_backend_inprocess gvisorConfig (by decide) (by decide)

/-- The contents of the working area of a process session after a completed
(non timed out) execution: the wrapper script and the input files written by
the first phase, then the files the work left behind, then the well-known
result file when the work wrote one. -/
def finalDir (s : ProcState) (req : ExecutionRequest) (b : WorkBehavior) :
    Files :=
  let fs2 := writeAll (startExec s.files req) b.filesWritten
  match b.resultContent with
  | some r => setFile fs2 "_result.json" (strBytes r)
  | none => fs2

theorem processExecute_normal (s : ProcState) (req : ExecutionRequest)
    (b : WorkBehavior) (hopen : s.closed = false)
    (htime : ¬ s.config.timeout_seconds < b.duration) :
    ProcessSandbox.execute s req b =
      { state := { s with files := finalDir s req b }
        resp := { success := b.returncode == 0
                  output := b.resultContent
                  stdout := b.stdout
                  stderr := b.stderr
                  exit_code := b.returncode
                  files_created :=
                    some (collectOutputFiles (finalDir s req b) req.files)
                  error := if b.returncode != 0 then some b.stderr else none }
        fate := ProcessFate.exited } := by
  simp only [ProcessSandbox.execute, finishExec, hopen, Bool.false_eq_true,
    if_false, finalDir, htime]

/-- The contents of the working area of a docker session after an execution
that did not hit the except branch. -/
def dockerFinalDir (d : DockerState) (req : ExecutionRequest)
    (b : WorkBehavior) : Files :=
  let fs1 := match resolveDockerCode req with
    | some c => setFile d.files "script.py" (strBytes c)
    | none => d.files
  let fs4 := writeAll (setFile (writeAll fs1 req.files) "_args.json"
    (strBytes req.argsJson)) b.filesWritten
  match b.resultContent with
  | some r => setFile fs4 "_result.json" (strBytes r)
  | none => fs4

theorem dockerExecute_normal (d : DockerState) (req : ExecutionRequest)
    (b : WorkBehavior) (hopen : d.closed = false) :
    DockerSandbox.execute d req b =
      ({ d with files := dockerFinalDir d req b },
       { success := b.returncode == 0
         output := b.resultContent
         stdout := b.stdout
         stderr := b.stderr
         exit_code := b.returncode
         files_created :=
           some (collectOutputFiles (dockerFinalDir d req b) req.files)
         error := none }) := by
  simp only [DockerSandbox.execute, hopen, Bool.false_eq_true, if_false,
    dockerFinalDir]

theorem lookup_filter_key (l : Files) (q : String → Bool) (F : String)
    (hq : q F = true) :
    (l.filter (fun e => q e.1)).lookup F = l.lookup F := by
  induction l with
  | nil => rfl
  | cons a t ih =>
    rcases a with ⟨k, v⟩
    by_cases hk : q k = true
    · by_cases hFk : F = k
      · subst hFk
        simp [List.filter_cons, hk, List.lookup]
      · have hm : (F == k) = false := beq_eq_false_iff_ne.mpr hFk
        simp [List.filter_cons, hk, List.lookup, hm, ih]
    · have hFk : F ≠ k := fun he => hk (he ▸ hq)
      have hm : (F == k) = false := beq_eq_false_iff_ne.mpr hFk
      have hk2 : q k = false := by simpa using hk
      simp [List.filter_cons, hk2, List.lookup, hm, ih]

theorem lookup_collectOutputFiles (wf inp : Files) (F : String)
    (h1 : startsUnderscore (fileName F) = false)
    (h2 : (inp.map Prod.fst).contains F = false) :
    (collectOutputFiles wf inp).lookup F = wf.lookup F := by
  have hrw : collectOutputFiles wf inp
      = wf.filter (fun e => (fun n => !startsUnderscore (fileName n)
          && !(inp.map Prod.fst).contains n) e.1) := rfl
  rw [hrw]
  refine lookup_filter_key wf
    (fun n => !startsUnderscore (fileName n)
      && !(inp.map Prod.fst).contains n) F ?_
  show (!startsUnderscore (fileName F)
    && !(inp.map Prod.fst).contains F) = true
  rw [h1, h2]
  rfl

theorem contains_iff_mem (l : List String) (a : String) :
    l.contains a = true ↔ a ∈ l := by
  induction l with
  | nil => simp
  | cons x t ih =>
    rw [List.contains_cons, Bool.or_eq_true, beq_iff_eq, ih, List.mem_cons]

theorem lookup_finalDir (s : ProcState) (req : ExecutionRequest)
    (b : WorkBehavior) (F : String) (B : Bytes)
    (hnd : (b.filesWritten.map Prod.fst).Nodup)
    (hFw : (F, B) ∈ b.filesWritten)
    (hFu : startsUnderscore (fileName F) = false) :
    (finalDir s req b).lookup F = some B := by
  have hFr : F ≠ "_result.json" := by
    intro he
    rw [he] at hFu
    exact absurd hFu (by decide)
  simp only [finalDir]
  rcases hrc : b.resultContent with _ | r
  · exact lookup_writeAll_mem b.filesWritten (startExec s.files req) F B hnd hFw
  · show (setFile (writeAll (startExec s.files req) b.filesWritten)
      "_result.json" (strBytes r)).lookup F = some B
    rw [lookup_setFile_ne _ "_result.json" F (strBytes r) hFr]
    exact lookup_writeAll_mem b.filesWritten (startExec s.files req) F B hnd hFw

/-- The bookkeeping files the process backend itself places into the working
area: the wrapper script and the well-known result file. -/
def processReservedFiles : List String := ["_exec.py", "_result.json"]

/-- Behaviour writing one underscore-named data file of three bytes. -/
def underscoreWriter : WorkBehavior :=
  { returncode := 0, filesWritten := [("_data.bin", [1, 2, 3])] }

/-- Behaviour writing one plainly named file of two bytes. -/
def plainWriter : WorkBehavior :=
  { returncode := 0, filesWritten := [("out.txt", [7, 8])] }

/-- Claim C3, counterexample: the executed code writes the new file
_data.bin, which is neither an input file of the request (the request has no
input files) nor one of the two reserved bookkeeping files of the
implementation, yet the produced files of the response are empty: the
collection filter drops every file whose name starts with an underscore, not
only the reserved ones. -/
theorem C3_counterexample :
    processReservedFiles.contains "_data.bin" = false ∧
    (({} : ExecutionRequest).files.map Prod.fst).contains "_data.bin"
      = false ∧
    (ProcessSandbox.execute sampleProc {} underscoreWriter).resp.files_created
      = some [] :=
  ⟨rfl, rfl, rfl⟩

/-- Claim C3 amended: for every completed execution on the process backend,
any byte content the executed code writes into a new file whose file name
does not start with an underscore and whose path is not a key of the input
files of the request appears verbatim in the produced files; and the
produced files never contain the reserved bookkeeping files or any input
file of the request. Files the code creates with underscore-prefixed names
are dropped even when they are not reserved. -/
theorem C3_roundtrip (s : ProcState) (req : ExecutionRequest)
    (b : WorkBehavior) (F : String) (B : Bytes)
    (hopen : s.closed = false)
    (htime : ¬ s.config.timeout_seconds < b.duration)
    (hnd : (b.filesWritten.map Prod.fst).Nodup)
    (hFw : (F, B) ∈ b.filesWritten)
    (hFu : startsUnderscore (fileName F) = false)
    (hFi : (req.files.map Prod.fst).contains F = false) :
    (ProcessSandbox.execute s req b).resp.files_created
      = some (collectOutputFiles (finalDir s req b) req.files) ∧
    (collectOutputFiles (finalDir s req b) req.files).lookup F = some B ∧
    (∀ G C, (G, C) ∈ collectOutputFiles (finalDir s req b) req.files →
      G ∉ processReservedFiles
        ∧ (req.files.map Prod.fst).contains G = false) := by
  refine ⟨?_, ?_, ?_⟩
  · rw [processExecute_normal s req b hopen htime]
  · rw [lookup_collectOutputFiles _ _ _ hFu hFi]
    exact lookup_finalDir s req b F B hnd hFw hFu
  · intro G C hGC
    have h := (mem_collectOutputFiles _ _ G C).mp hGC
    refine ⟨?_, h.2.2⟩
    intro hGres
    have hu := h.2.1
    simp only [processReservedFiles, List.mem_cons, List.not_mem_nil,
      or_false] at hGres
    rcases hGres with hG | hG <;> rw [hG] at hu <;> exact absurd hu (by decide)

/-- Witness for the amended claim C3 at concrete inputs. -/
theorem C3_roundtrip_witness :
    (ProcessSandbox.execute sampleProc {} plainWriter).resp.files_created
      = some (collectOutputFiles
          (finalDir sampleProc {} plainWriter) ({} : ExecutionRequest).files) ∧
    (collectOutputFiles (finalDir sampleProc {} plainWriter)
        ({} : ExecutionRequest).files).lookup "out.txt" = some [7, 8] ∧
    (∀ G C, (G, C) ∈ collectOutputFiles (finalDir sampleProc {} plainWriter)
        ({} : ExecutionRequest).files →
      G ∉ processReservedFiles
        ∧ ((({} : ExecutionRequest).files.map Prod.fst).contains G
            = false)) :=
  C3_roundtrip sampleProc {} plainWriter "out.txt" [7, 8] rfl (by decide)
    (by decide) (by decide) (by decide) rfl

/-- Claim C10: on both the process and the docker backend, for every
execution that reaches the collection loop, the produced files of the
response are exactly the files of the final working area whose file name
does not start with an underscore and whose relative path is not a key of
the input files of the request; in particular underscore-named files the
code created and input files rewritten in place are omitted. -/
theorem C10_produced_files_exact (s : ProcState) (req : ExecutionRequest)
    (b : WorkBehavior) (hopen : s.closed = false)
    (htime : ¬ s.config.timeout_seconds < b.duration)
    (d : DockerState) (dreq : ExecutionRequest) (db : WorkBehavior)
    (hdopen : d.closed = false) :
    ((ProcessSandbox.execute s req b).resp.files_created
      = some (collectOutputFiles
          (ProcessSandbox.execute s req b).state.files req.files)) ∧
    (∀ F B, (F, B) ∈ collectOutputFiles
        (ProcessSandbox.execute s req b).state.files req.files ↔
      ((F, B) ∈ (ProcessSandbox.execute s req b).state.files
        ∧ startsUnderscore (fileName F) = false
        ∧ (req.files.map Prod.fst).contains F = false)) ∧
    ((DockerSandbox.execute d dreq db).2.files_created
      = some (collectOutputFiles
          (DockerSandbox.execute d dreq db).1.files dreq.files)) ∧
    (∀ F B, (F, B) ∈ collectOutputFiles
        (DockerSandbox.execute d dreq db).1.files dreq.files ↔
      ((F, B) ∈ (DockerSandbox.execute d dreq db).1.files
        ∧ startsUnderscore (fileName F) = false
        ∧ (dreq.files.map Prod.fst).contains F = false)) := by
  refine ⟨?_, fun F B => mem_collectOutputFiles _ _ F B, ?_,
    fun F B => mem_collectOutputFiles _ _ F B⟩
  · rw [processExecute_normal s req b hopen htime]
  · rw [dockerExecute_normal d dreq db hdopen]

/-- Witness for claim C10 at concrete inputs. -/
theorem C10_produced_files_exact_witness :
    ((ProcessSandbox.execute sampleProc {} plainWriter).resp.files_created
      = some (collectOutputFiles
          (ProcessSandbox.execute sampleProc {} plainWriter).state.files
          ({} : ExecutionRequest).files)) ∧
    (∀ F B, (F, B) ∈ collectOutputFiles
        (ProcessSandbox.execute sampleProc {} plainWriter).state.files
        ({} : ExecutionRequest).files ↔
      ((F, B) ∈ (ProcessSandbox.execute sampleProc {} plainWriter).state.files
        ∧ startsUnderscore (fileName F) = false
        ∧ ((({} : ExecutionRequest).files.map Prod.fst).contains F
            = false))) ∧
    ((DockerSandbox.execute sampleDocker {} plainWriter).2.files_created
      = some (collectOutputFiles
          (DockerSandbox.execute sampleDocker {} plainWriter).1.files
          ({} : ExecutionRequest).files)) ∧
    (∀ F B, (F, B) ∈ collectOutputFiles
        (DockerSandbox.execute sampleDocker {} plainWriter).1.files
        ({} : ExecutionRequest).files ↔
      ((F, B) ∈ (DockerSandbox.execute sampleDocker {} plainWriter).1.files
        ∧ startsUnderscore (fileName F) = false
        ∧ ((({} : ExecutionRequest).files.map Prod.fst).contains F
            = false))) :=
  C10_produced_files_exact sampleProc {} plainWriter rfl (by decide)
    sampleDocker {} plainWriter rfl

/-- Behaviour exiting with code one and an error message on stderr. -/
def failingWork : WorkBehavior := { returncode := 1, stderr := "boom" }

/-- Claim C6, counterexample: on the docker backend a container exec that
exits with code one yields success false, yet the error field of the
response is absent: the success path of DockerSandbox.execute never assigns
error, whatever the exit code. -/
theorem C6_counterexample :
    (DockerSandbox.execute sampleDocker {} failingWork).2.success = false ∧
    (DockerSandbox.execute sampleDocker {} failingWork).2.exit_code = 1 ∧
    (DockerSandbox.execute sampleDocker {} failingWork).2.error = none :=
  ⟨rfl, rfl, rfl⟩

/-- Claim C6 amended: on the process backend the error field is present
exactly when success is false, on every path (timeout, nonzero exit,
internal exception, success); on the docker backend the non-exception path
never sets error, so a nonzero container exit has success false with no
error. -/
theorem C6_error_iff_failure (s : ProcState) (req : ExecutionRequest)
    (b : WorkBehavior) (d : DockerState) (dreq : ExecutionRequest)
    (db : WorkBehavior) (hdopen : d.closed = false) :
    ((ProcessSandbox.execute s req b).resp.error.isSome = true
      ↔ (ProcessSandbox.execute s req b).resp.success = false) ∧
    (DockerSandbox.execute d dreq db).2.error = none := by
  constructor
  · by_cases hc : s.closed = true
    · simp [ProcessSandbox.execute, hc]
    · have hc2 : s.closed = false := by simpa using hc
      by_cases ht : s.config.timeout_seconds < b.duration
      · simp [ProcessSandbox.execute, finishExec, hc2, ht]
      · rw [processExecute_normal s req b hc2 ht]
        by_cases hrc : b.returncode = 0
        · simp [hrc]
        · have h1 : (b.returncode == 0) = false := beq_eq_false_iff_ne.mpr hrc
          have h2 : (b.returncode != 0) = true := by simp [bne, h1]
          simp [h1, h2]
  · rw [dockerExecute_normal d dreq db hdopen]

/-- Witness for the amended claim C6 at concrete inputs. -/
theorem C6_error_iff_failure_witness :
    ((ProcessSandbox.execute sampleProc {} failingWork).resp.error.isSome
        = true
      ↔ (ProcessSandbox.execute sampleProc {} failingWork).resp.success
        = false) ∧
    (DockerSandbox.execute sampleDocker {} failingWork).2.error = none :=
  C6_error_iff_failure sampleProc {} failingWork sampleDocker {} failingWork
    rfl

theorem install_noop_of_all_contains (t : ProcState) (pkgs : List String)
    (pip2 : Bool) (h : ∀ p ∈ pkgs, t.installed.contains p = true) :
    ProcessSandbox.install_packages t pkgs pip2
      = { state := t, ok := true, pipRuns := 0 } := by
  unfold ProcessSandbox.install_packages
  have hfe : pkgs.filter (fun q => !t.installed.contains q) = [] := by
    rw [List.filter_eq_nil_iff]
    intro p hp
    simp [h p hp]
    exact (contains_iff_mem t.installed p).mp (h p hp)
  rw [hfe]
  simp

/-- Claim C5, counterexample: the docker backend keeps no installed-package
set at all (DockerState has no such field) and install_packages performs no
filtering: every call with a live container invokes pip once with the full
package list, so two calls for the same package invoke the installer
twice. -/
theorem C5_counterexample :
    (DockerSandbox.install_packages sampleDocker ["numpy"] true).2
      = [["numpy"]] ∧
    ((DockerSandbox.install_packages sampleDocker ["numpy"] true).2
      ++ (DockerSandbox.install_packages sampleDocker ["numpy"] true).2).length
      = 2 :=
  ⟨rfl, rfl⟩

/-- Claim C5 amended: only the process backend filters against a per-session
installed set, and it records packages only when pip succeeds. After one
successful install of a package list, a repeated call with the same list
runs pip zero times and returns true; after a failed install the state is
unchanged, so a retry runs pip again; and the docker backend invokes pip
with the full package list on every call with a live container. -/
theorem C5_install_once (s : ProcState) (pkgs : List String) (pip2 : Bool)
    (d : DockerState) (dpkgs : List String) (dpip : Bool)
    (hdc : d.containerSet = true) :
    (ProcessSandbox.install_packages
      (ProcessSandbox.install_packages s pkgs true).state pkgs pip2).pipRuns
      = 0 ∧
    (ProcessSandbox.install_packages
      (ProcessSandbox.install_packages s pkgs true).state pkgs pip2).ok
      = true ∧
    (ProcessSandbox.install_packages s pkgs false).state = s ∧
    (DockerSandbox.install_packages d dpkgs dpip).2 = [dpkgs] := by
  have hall : ∀ p ∈ pkgs,
      (ProcessSandbox.install_packages s pkgs true).state.installed.contains p
        = true := by
    intro p hp
    unfold ProcessSandbox.install_packages
    by_cases he :
        (pkgs.filter (fun q => !s.installed.contains q)).isEmpty = true
    · rw [if_pos he]
      have hnil := List.isEmpty_iff.mp he
      have h3 := List.filter_eq_nil_iff.mp hnil p hp
      simpa using h3
    · rw [if_neg he]
      simp only [if_pos rfl]
      rw [contains_iff_mem]
      show p ∈ s.installed ++ pkgs.filter (fun q => !s.installed.contains q)
      rw [List.mem_append]
      by_cases hcp : s.installed.contains p = true
      · exact Or.inl ((contains_iff_mem s.installed p).mp hcp)
      · refine Or.inr (List.mem_filter.mpr ⟨hp, ?_⟩)
        simp only [Bool.not_eq_true] at hcp
        simp [hcp]
        intro hm
        rw [(contains_iff_mem s.installed p).mpr hm] at hcp
        exact Bool.noConfusion hcp
  have hmain := install_noop_of_all_contains
    (ProcessSandbox.install_packages s pkgs true).state pkgs pip2 hall
  refine ⟨by rw [hmain], by rw [hmain], ?_, ?_⟩
  · unfold ProcessSandbox.install_packages
    by_cases he :
        (pkgs.filter (fun q => !s.installed.contains q)).isEmpty = true
    · rw [if_pos he]
    · rw [if_neg he]
      rfl
  · simp [DockerSandbox.install_packages, hdc]

/-- Witness for the amended claim C5 at concrete inputs. -/
theorem C5_install_once_witness :
    (ProcessSandbox.install_packages
      (ProcessSandbox.install_packages sampleProc ["numpy"] true).state
      ["numpy"] true).pipRuns = 0 ∧
    (ProcessSandbox.install_packages
      (ProcessSandbox.install_packages sampleProc ["numpy"] true).state
      ["numpy"] true).ok = true ∧
    (ProcessSandbox.install_packages sampleProc ["numpy"] false).state
      = sampleProc ∧
    (DockerSandbox.install_packages sampleDocker ["numpy"] true).2
      = [["numpy"]] :=
  C5_install_once sampleProc ["numpy"] true sampleDocker ["numpy"] true rfl

/-- Claim C7, counterexample: two execute calls racing on the same fresh
session, interleaved at the awaited wait_for, both reach
create_subprocess_exec (two spawned processes) and both return ordinary
successful responses; neither call is rejected and no response carries any
error, let alone a SessionBusy one. -/
theorem C7_counterexample :
    (interleavedExecute sampleProc {} {} {} {}).spawns.length = 2 ∧
    (interleavedExecute sampleProc {} {} {} {}).respA.success = true ∧
    (interleavedExecute sampleProc {} {} {} {}).respB.success = true ∧
    (interleavedExecute sampleProc {} {} {} {}).respA.error = none ∧
    (interleavedExecute sampleProc {} {} {} {}).respB.error = none :=
  ⟨rfl, rfl, rfl, rfl, rfl⟩

/-- Claim C7 amended: the implementation has no per-session busy state, no
lock and no SessionBusy rejection: when a second execute call arrives on the
same open session while the first is suspended at its wait, both calls spawn
their subprocess and proceed against the shared working area. -/
theorem C7_no_serialization (s : ProcState) (reqA reqB : ExecutionRequest)
    (bA bB : WorkBehavior) (hopen : s.closed = false) :
    (interleavedExecute s reqA reqB bA bB).spawns
      = [{ script := resolveCode reqA }, { script := resolveCode reqB }] := by
  simp [interleavedExecute, hopen]

/-- Witness for the amended claim C7 at concrete inputs. -/
theorem C7_no_serialization_witness :
    (interleavedExecute sampleProc {} {} {} {}).spawns
      = [{ script := resolveCode ({} : ExecutionRequest) },
         { script := resolveCode ({} : ExecutionRequest) }] :=
  C7_no_serialization sampleProc {} {} {} {} rfl

/-- Claim C8, counterexample: after cleanup, execute does fail, but its
error is the operating-system text of the failed write into the removed
working area, not a SessionClosed error; no SessionClosed error exists in
the implementation. -/
theorem C8_counterexample :
    (ProcessSandbox.execute (ProcessSandbox.cleanup sampleProc) {}
      {}).resp.success = false ∧
    (ProcessSandbox.execute (ProcessSandbox.cleanup sampleProc) {}
      {}).resp.error = some missingWorkDirMsg ∧
    missingWorkDirMsg ≠ "SessionClosed" :=
  ⟨rfl, rfl, by decide⟩

/-- Claim C8 amended: every execute call on a cleaned-up session fails
before spawning anything: the first write into the removed working area
raises, the except branch returns success false with the raised OS error
text, and no subprocess is created. The failure carries the OS text, not a
SessionClosed error. -/
theorem C8_after_cleanup (s : ProcState) (req : ExecutionRequest)
    (b : WorkBehavior) :
    (ProcessSandbox.execute (ProcessSandbox.cleanup s) req b).resp.success
      = false ∧
    (ProcessSandbox.execute (ProcessSandbox.cleanup s) req b).resp.error
      = some missingWorkDirMsg ∧
    (ProcessSandbox.execute (ProcessSandbox.cleanup s) req b).fate
      = ProcessFate.notSpawned := by
  simp [ProcessSandbox.execute, ProcessSandbox.cleanup]

theorem contains_filter_ne_self (l : List (String × BackendKind))
    (id : String) :
    ((l.filter (fun e => e.1 != id)).map Prod.fst).contains id = false := by
  rw [Bool.eq_false_iff]
  intro h
  rw [contains_iff_mem] at h
  rcases List.mem_map.mp h with ⟨e, he, hfst⟩
  have hf := (List.mem_filter.mp he).2
  exact absurd hfst (bne_iff_ne.mp hf)

/-- Sample session table holding one process sandbox. -/
def sampleMgr : Manager := { table := [("a", BackendKind.process)] }

/-- Claim C9: release_sandbox is idempotent. Releasing an id that has no
entry in the session table returns the table unchanged, and releasing the
same id a second time equals releasing it once; the function is total, so
neither call can error. -/
theorem C9_release_idempotent (m : Manager) (id : String) :
    ((m.table.map Prod.fst).contains id = false →
      SandboxManager.release_sandbox m id = m) ∧
    SandboxManager.release_sandbox (SandboxManager.release_sandbox m id) id
      = SandboxManager.release_sandbox m id := by
  constructor
  · intro h
    unfold SandboxManager.release_sandbox
    rw [h]
    simp
  · by_cases hc : (m.table.map Prod.fst).contains id = true
    · have hinner : SandboxManager.release_sandbox m id
          = { table := m.table.filter (fun e => e.1 != id) } := by
        unfold SandboxManager.release_sandbox
        rw [if_pos hc]
      rw [hinner]
      unfold SandboxManager.release_sandbox
      simp [contains_filter_ne_self m.table id]
    · have hc2 : (m.table.map Prod.fst).contains id = false := by
        simpa using hc
      have hinner : SandboxManager.release_sandbox m id = m := by
        unfold SandboxManager.release_sandbox
        rw [hc2]
        simp
      rw [hinner]
      exact hinner

/-- Witness for claim C9 at concrete inputs: an unknown id on an empty
table, and a double release of a stored id. -/
theorem C9_release_idempotent_witness :
    SandboxManager.release_sandbox {} "s1" = ({} : Manager) ∧
    SandboxManager.release_sandbox
        (SandboxManager.release_sandbox sampleMgr "a") "a"
      = SandboxManager.release_sandbox sampleMgr "a" :=
  ⟨(C9_release_idempotent {} "s1").1 rfl,
   (C9_release_idempotent sampleMgr "a").2⟩

/-- Similarity collaborator that is absent: every example scores zero. -/
def simZero : Str → Str → ℚ := fun _ _ => 0

/-- A cape with id b and one intent phrase x. -/
def capeB : Cape := { id := ['b'], metadata := { intents := [['x']] } }

/-- A cape with id a and one intent phrase x. -/
def capeA : Cape := { id := ['a'], metadata := { intents := [['x']] } }

/-- The ordering the claim asserts for the result list: score strictly
descending, or equal scores with capability id strictly ascending. -/
def tieBreakOrdered (l : List MatchResult) : Prop :=
  l.Chain' (fun a b =>
    b.score < a.score ∨ (b.score = a.score ∧ a.capeId < b.capeId))

/-- Claim C4, counterexample: with the capes registered in the order b then
a, both matching the query with the same score of one half, the matcher
returns them in registry order b before a: the sort is stable on the score
alone and never consults the capability id, so the claimed id-ascending
tie-break fails. The returned scores are also below the threshold one, so no
threshold filtering can have taken place: the method has no threshold
parameter and only drops scores that are not positive. -/
theorem C4_counterexample :
    CapeMatcher.matchQuery simZero [capeB, capeA] ['x'] 5
      = [{ capeId := ['b'], score := 1/2 },
         { capeId := ['a'], score := 1/2 }] ∧
    ¬ tieBreakOrdered
        [{ capeId := ['b'], score := 1/2 },
         { capeId := ['a'], score := 1/2 }] ∧
    ((1:ℚ)/2 < 1) := by
  have hsB : capeScore simZero ['x'] capeB = 1/2 := by
    simp [capeScore, capeB, simZero, occursIn, leadSeg]
  have hsA : capeScore simZero ['x'] capeA = 1/2 := by
    simp [capeScore, capeA, simZero, occursIn, leadSeg]
  have hidB : capeB.id = ['b'] := rfl
  have hidA : capeA.id = ['a'] := rfl
  have hpos : (0:ℚ) < 1/2 := by norm_num
  have hnlt : ¬ ((1:ℚ)/2 < 1/2) := lt_irrefl _
  refine ⟨?_, ?_, by norm_num⟩
  · simp only [CapeMatcher.matchQuery, matchResults, List.filterMap_cons,
      List.filterMap_nil, hsB, hsA, hidB, hidA, if_pos hpos, pySortDesc,
      List.foldl_cons, List.foldl_nil, insertDesc, if_neg hnlt, List.take]
  · intro h
    rw [tieBreakOrdered, List.chain'_cons] at h
    rcases h.1 with hlt | ⟨_, hid⟩
    · exact hnlt hlt
    · exact absurd hid (by decide)

theorem filter_score_insertDesc (x : MatchResult) (l : List MatchResult)
    (s : ℚ) (hsorted : l.Pairwise (fun a b => b.score ≤ a.score)) :
    (insertDesc x l).filter (fun r => r.score = s)
      = if x.score = s
        then l.filter (fun r => r.score = s) ++ [x]
        else l.filter (fun r => r.score = s) := by
  induction l with
  | nil =>
    by_cases hx : x.score = s <;> simp [insertDesc, hx]
  | cons y ys ih =>
    rw [List.pairwise_cons] at hsorted
    by_cases hlt : y.score < x.score
    · rw [insertDesc, if_pos hlt]
      by_cases hx : x.score = s
      · have hdrop : (y :: ys).filter (fun r => r.score = s) = [] := by
          rw [List.filter_eq_nil_iff]
          intro z hz
          have hzle : z.score ≤ y.score := by
            rcases List.mem_cons.mp hz with h | h
            · exact h ▸ le_refl _
            · exact hsorted.1 z h
          have hzlt : z.score < s := lt_of_le_of_lt hzle (hx ▸ hlt)
          simp [ne_of_lt hzlt]
        rw [if_pos hx, hdrop]
        simp [List.filter_cons, hx, hdrop]
      · rw [if_neg hx]
        simp [List.filter_cons, hx]
    · rw [insertDesc, if_neg hlt]
      by_cases hy : y.score = s <;> by_cases hx : x.score = s <;>
        simp [List.filter_cons, hy, hx, ih hsorted.2]

theorem filter_score_pySortDesc (l : List MatchResult) (s : ℚ) :
    (pySortDesc l).filter (fun r => r.score = s)
      = l.filter (fun r => r.score = s) := by
  suffices h : ∀ acc, acc.Pairwise (fun a b => b.score ≤ a.score) →
      (l.foldl (fun a x => insertDesc x a) acc).filter
          (fun r => r.score = s)
        = acc.filter (fun r => r.score = s)
          ++ l.filter (fun r => r.score = s) by
    simpa [pySortDesc] using h [] List.Pairwise.nil
  induction l with
  | nil =>
    intro acc _
    simp
  | cons x t ih =>
    intro acc hacc
    rw [List.foldl_cons,
      ih (insertDesc x acc) (pairwise_insertDesc x acc hacc),
      filter_score_insertDesc x acc s hacc]
    by_cases hx : x.score = s <;> simp [List.filter_cons, hx]

theorem insertDesc_perm (x : MatchResult) (l : List MatchResult) :
    (insertDesc x l).Perm (x :: l) := by
  induction l with
  | nil => exact List.Perm.refl _
  | cons y ys ih =>
    by_cases hlt : y.score < x.score
    · rw [insertDesc, if_pos hlt]
    · rw [insertDesc, if_neg hlt]
      exact (ih.cons y).trans (List.Perm.swap x y ys)

theorem pySortDesc_perm (l : List MatchResult) : (pySortDesc l).Perm l := by
  suffices h : ∀ acc,
      (l.foldl (fun a x => insertDesc x a) acc).Perm (acc ++ l) by
    simpa [pySortDesc] using h []
  induction l with
  | nil =>
    intro acc
    simp
  | cons x t ih =>
    intro acc
    rw [List.foldl_cons]
    refine (ih (insertDesc x acc)).trans ?_
    refine (List.Perm.append_right t (insertDesc_perm x acc)).trans ?_
    exact List.perm_middle.symm

/-- Claim C4 amended: the matcher has no threshold parameter; it keeps
exactly the capes with positive score and no others (the sorted list is a
permutation of the registry-order result list, and every cape with positive
score contributes its entry to it), returns them ordered by score
descending with equal scores left in registry order (for every score value,
the entries of the sorted list carrying that score are exactly the
registry-order entries carrying it: the stable sort never consults the
capability id), and truncates the list to top_k entries. -/
theorem C4_match_ordering (sim : Str → Str → ℚ) (capes : List Cape)
    (query : Str) (k : Nat) :
    CapeMatcher.matchQuery sim capes query k
      = (pySortDesc (matchResults sim capes query)).take k ∧
    (∀ s : ℚ, (pySortDesc (matchResults sim capes query)).filter
        (fun r => r.score = s)
      = (matchResults sim capes query).filter (fun r => r.score = s)) ∧
    (pySortDesc (matchResults sim capes query)).Perm
      (matchResults sim capes query) ∧
    (∀ c ∈ capes, 0 < capeScore sim query c →
      { capeId := c.id, score := capeScore sim query c }
        ∈ pySortDesc (matchResults sim capes query)) ∧
    allPositiveScores (CapeMatcher.matchQuery sim capes query k) = true ∧
    sortedDescBool (CapeMatcher.matchQuery sim capes query k) = true ∧
    (CapeMatcher.matchQuery sim capes query k).length ≤ k := by
  refine ⟨rfl, fun s => filter_score_pySortDesc _ s, pySortDesc_perm _,
    ?_, ?_, ?_, ?_⟩
  · intro c hc hpos
    rw [mem_pySortDesc]
    refine List.mem_filterMap.mpr ⟨c, hc, ?_⟩
    show (if 0 < capeScore sim query c
      then some ({ capeId := c.id, score := capeScore sim query c }
        : MatchResult)
      else none)
        = some ({ capeId := c.id, score := capeScore sim query c }
          : MatchResult)
    rw [if_pos hpos]
  · rw [allPositiveScores, List.all_eq_true]
    intro r hr
    simp only [CapeMatcher.matchQuery] at hr
    have hr1 := (List.take_sublist k _).subset hr
    rw [mem_pySortDesc] at hr1
    rcases List.mem_filterMap.mp hr1 with ⟨c, _, hfc⟩
    by_cases hs : 0 < capeScore sim query c
    · rw [if_pos hs] at hfc
      have heq := Option.some.inj hfc
      rw [← heq]
      exact decide_eq_true hs
    · rw [if_neg hs] at hfc
      exact absurd hfc (by simp)
  · apply sortedDescBool_of_pairwise
    simp only [CapeMatcher.matchQuery]
    exact List.Pairwise.sublist (List.take_sublist k _) (pairwise_pySortDesc _)
  · simp only [CapeMatcher.matchQuery]
    exact List.length_take_le k _

/-- Witness for the amended claim C4 at concrete inputs. -/
theorem C4_match_ordering_witness :
    CapeMatcher.matchQuery simZero [capeB, capeA] ['x'] 5
      = (pySortDesc (matchResults simZero [capeB, capeA] ['x'])).take 5 ∧
    (∀ s : ℚ, (pySortDesc (matchResults simZero [capeB, capeA] ['x'])).filter
        (fun r => r.score = s)
      = (matchResults simZero [capeB, capeA] ['x']).filter
          (fun r => r.score = s)) ∧
    (pySortDesc (matchResults simZero [capeB, capeA] ['x'])).Perm
      (matchResults simZero [capeB, capeA] ['x']) ∧
    (∀ c ∈ [capeB, capeA], 0 < capeScore simZero ['x'] c →
      { capeId := c.id, score := capeScore simZero ['x'] c }
        ∈ pySortDesc (matchResults simZero [capeB, capeA] ['x'])) ∧
    allPositiveScores (CapeMatcher.matchQuery simZero [capeB, capeA] ['x'] 5)
      = true ∧
    sortedDescBool (CapeMatcher.matchQuery simZero [capeB, capeA] ['x'] 5)
      = true ∧
    (CapeMatcher.matchQuery simZero [capeB, capeA] ['x'] 5).length ≤ 5 :=
  C4_match_ordering simZero [capeB, capeA] ['x'] 5

/-- Witness for the amended claim C8 at concrete inputs. -/
theorem C8_after_cleanup_witness :
    (ProcessSandbox.execute (ProcessSandbox.cleanup sampleProc) {}
      longWork).resp.success = false ∧
    (ProcessSandbox.execute (ProcessSandbox.cleanup sampleProc) {}
      longWork).resp.error = some missingWorkDirMsg ∧
    (ProcessSandbox.execute (ProcessSandbox.cleanup sampleProc) {}
      longWork).fate = ProcessFate.notSpawned :=
  C8_after_cleanup sampleProc {} longWork
